import Mathlib

/-
Verification of the DWD_Warnungen warning app (DWDWarnAPP.py, DWDWarnApp_noCAP.py).

Shallow embedding conventions:
* a Python `str` is modelled as `List Char` (`Str` below); Python slicing
  `s[a:]` is `Str.drop a`, `s[:b]` is `Str.take b`, `s[a:b]` is
  `(s.drop a).take (b - a)`, `len(s)` is `List.length`, and
  `s.startswith(p)` is `p.isPrefixOf s`;
* geographic coordinates are modelled as exact integers (`ℤ × ℤ`): every
  concrete polygon and query point in this development has small integer
  coordinates, which IEEE doubles represent exactly, so Shapely's exact
  predicates agree with this model on them;
* network fetching and console output are out of scope; the functions below
  take the already-parsed payloads (feature list, warnings mapping) as
  arguments and return the value the Python function returns.
-/

/-- A Python string, modelled as its list of characters. -/
abbrev Str := List Char

/-- A planar point, `(x, y)` = `(longitude, latitude)` as Shapely uses it. -/
abbrev Pt := ℤ × ℤ

/- ===== Geometry: model of Shapely `geometry.contains(point)` ===== -/

/-- Whether `x` lies between `u` and `v` (in either order). -/
def between (x u v : ℤ) : Bool :=
  (u ≤ x && x ≤ v) || (v ≤ x && x ≤ u)

/-- Whether point `p` lies on the closed segment from `a` to `b`:
collinearity (zero cross product) plus bounding-box membership. -/
def onSeg (p a b : Pt) : Bool :=
  (b.1 - a.1) * (p.2 - a.2) - (b.2 - a.2) * (p.1 - a.1) == 0
    && between p.1 a.1 b.1 && between p.2 a.2 b.2

/-- The edges of a polygon ring given by its vertex list (the closing edge
from the last vertex back to the first is included). -/
def ringEdges (ring : List Pt) : List (Pt × Pt) :=
  ring.zip (ring.rotate 1)

/-- Whether point `p` lies on the boundary of the polygon with vertex ring
`ring`. -/
def onBoundary (ring : List Pt) (p : Pt) : Bool :=
  (ringEdges ring).any fun e => onSeg p e.1 e.2

/-- One step of even-odd ray casting: whether the horizontal ray from `p`
towards `+x` crosses the open edge from `a` to `b`.  The textbook test
`p.x < a.x + (b.x - a.x) * (p.y - a.y) / (b.y - a.y)` is written
division-free: with `d = b.y - a.y` (nonzero when the edge straddles `p.y`)
and `num = (b.x - a.x) * (p.y - a.y) - (p.x - a.x) * d`, the inequality is
equivalent to `num` and `d` having the same strict sign. -/
def rayCrosses (p a b : Pt) : Bool :=
  ((decide (a.2 > p.2)) != (decide (b.2 > p.2)))
    && ((decide (0 < (b.1 - a.1) * (p.2 - a.2) - (p.1 - a.1) * (b.2 - a.2))
          && decide (0 < b.2 - a.2))
        || (decide ((b.1 - a.1) * (p.2 - a.2) - (p.1 - a.1) * (b.2 - a.2) < 0)
          && decide (b.2 - a.2 < 0)))

/-- Even-odd ray casting over all edges of the ring. -/
def windingOdd (ring : List Pt) (p : Pt) : Bool :=
  (ringEdges ring).foldl (fun acc e => xor acc (rayCrosses p e.1 e.2)) false

/-- Model of Shapely's `geometry.contains(point)` for a simple polygon:
per the library's DE-9IM semantics a polygon contains a point iff the point
lies in the polygon's interior, so a point on the boundary is NOT contained
(`covers`, not used by this code, would include it).  Realised as even-odd
ray casting with boundary points excluded. -/
def containsPt (ring : List Pt) (p : Pt) : Bool :=
  !onBoundary ring p && windingOdd ring p

/- ===== RegionCatalog / PointResolver:
   `get_ags_from_coordinates` (DWDWarnApp_noCAP.py, lines 93-132) ===== -/

/-- The `properties` mapping of a GeoJSON feature, restricted to the keys the
code reads: `properties.get("AGS")` and `properties.get("NAME", "Unbekannt")`. -/
structure Props where
  ags : Option Str
  name : Option Str

/-- The `geometry` field of a raw feature as the code observes it:
`absent` — the `"geometry"` key is missing (the `"geometry" not in feature`
check skips it); `malformed` — present but `shape(...)` raises (the
`except` clause skips it); `valid ring` — parses to a polygon. -/
inductive GeomField where
  | absent : GeomField
  | malformed : GeomField
  | valid (ring : List Pt) : GeomField

/-- A raw GeoJSON feature: its geometry field and its `properties` mapping
(`none` when the `"properties"` key is missing, which is also skipped). -/
structure RawFeature where
  geometry : GeomField
  properties : Option Props

/-- Whether a feature's geometry parses and contains the point — the
condition `geometry = shape(feature["geometry"]); geometry.contains(point)`
succeeding in the loop body. -/
def featureContains (f : RawFeature) (p : Pt) : Bool :=
  match f.geometry with
  | GeomField.valid ring => containsPt ring p
  | _ => false

/-- The scanning loop of `get_ags_from_coordinates`
(DWDWarnApp_noCAP.py, lines 115-132), given the parsed feature list:
skip a feature whose `"geometry"` or `"properties"` key is missing, skip a
feature whose geometry fails to parse, and for the first feature whose
geometry contains the point return `(ags, name)` — but only when the `AGS`
property is present and non-empty (`if ags:`); otherwise keep scanning.
Exhausting the list returns `none` (the Python function's
"Kein passendes Warngebiet (AGS) für die Koordinaten gefunden." outcome;
the human-readable message channel is presentation and not modelled). -/
def get_ags_from_coordinates (p : Pt) : List RawFeature → Option (Str × Str)
  | [] => none
  | f :: rest =>
    match f.properties with
    | none => get_ags_from_coordinates p rest
    | some pr =>
      match f.geometry with
      | GeomField.absent => get_ags_from_coordinates p rest
      | GeomField.malformed => get_ags_from_coordinates p rest
      | GeomField.valid ring =>
        if containsPt ring p then
          match pr.ags with
          | some a =>
            if a ≠ [] then some (a, pr.name.getD "Unbekannt".toList)
            else get_ags_from_coordinates p rest
          | none => get_ags_from_coordinates p rest
        else get_ags_from_coordinates p rest

/- ===== MatchEngine, prefix policy:
   the module-level match loop of DWDWarnAPP.py (lines 250-271) ===== -/

/-- The prefix matching policy: `location_ags.startswith(details["ags_code"])`
(DWDWarnAPP.py, line 258).  The query (the location's AGS) matches a warning
when the warning's AGS code is a literal prefix of it. -/
def agsMatches (location_ags ags_code : Str) : Bool :=
  ags_code.isPrefixOf location_ags

/- ===== CodeNormalizer, LeadingDigitStrip:
   `ags_code_from_warncell` derivation (DWDWarnAPP.py, lines 199-203) ===== -/

/-- `warncell_id[1:] if warncell_id.startswith('1') and len(warncell_id) > 1
else warncell_id` (DWDWarnAPP.py, lines 202-203). -/
def ags_code_from_warncell (warncell_id : Str) : Str :=
  if "1".toList.isPrefixOf warncell_id && decide (1 < warncell_id.length) then
    warncell_id.drop 1
  else warncell_id

/- ===== WarningIndex / MatchEngine, truncated-equality policy:
   `get_warnings_by_ags` (DWDWarnApp_noCAP.py, lines 164-226) ===== -/

/-- One warning object of the DWD JSON feed, restricted to the fields the
code reads (`w.get(...)` in the display loop); the matching logic never
inspects them.  `start`/`end` are millisecond epoch stamps (`end` is a Lean
keyword, hence `startMs`/`endMs`). -/
structure Warning where
  event : Option Str
  headline : Option Str
  level : Option Nat
  type : Option Str
  regionName : Option Str
  state : Option Str
  startMs : Option Int
  endMs : Option Int
  description : Option Str
  instruction : Option Str

/-- The per-cell match test `warncell_id_str[1:6] == ags_kreis`
(DWDWarnApp_noCAP.py, line 212): characters 1..5 of the warncell id against
the already-truncated county key. -/
def cellMatches (warncell_id ags_kreis : Str) : Bool :=
  (warncell_id.drop 1).take 5 == ags_kreis

/-- The matching loop of `get_warnings_by_ags`
(DWDWarnApp_noCAP.py, lines 204-214) over the `warnings` mapping, modelled
as its list of `(warncell id, warnings list)` items in insertion (ingestion)
order: skip entries whose cell id is shorter than 6 characters, and extend
the result with the cell's warnings when characters 1..5 of the cell id
equal the county key. -/
def match_loop (ags_kreis : Str) : List (Str × List Warning) → List Warning
  | [] => []
  | (cell, ws) :: rest =>
    if cell.length < 6 then match_loop ags_kreis rest
    else if cellMatches cell ags_kreis then ws ++ match_loop ags_kreis rest
    else match_loop ags_kreis rest

/-- The error message returned for an empty or too-short AGS code
(DWDWarnApp_noCAP.py, line 177). -/
def errMsgInvalidAgs : Str :=
  "Fehler: Ungültiger oder zu kurzer AGS-Code für die Warnungssuche.".toList

/-- `get_warnings_by_ags` (DWDWarnApp_noCAP.py, lines 164-216), given the
parsed `warnings` mapping: guard `if not ags_code or len(ags_code) < 5`
returns `([], error message)`; otherwise compute `ags_kreis = ags_code[:5]`
and run the matching loop, returning `(matched_warnings, None)`. -/
def get_warnings_by_ags (ags_code : Str) (warnings : List (Str × List Warning)) :
    List Warning × Option Str :=
  if ags_code = [] ∨ ags_code.length < 5 then ([], some errMsgInvalidAgs)
  else (match_loop (ags_code.take 5) warnings, none)

/- ===== Concrete example data used by witnesses and counterexamples ===== -/

/-- A unit-test square: vertices (0,0), (2,0), (2,2), (0,2). -/
def sqRing : List Pt := [(0, 0), (2, 0), (2, 2), (0, 2)]

/-- A square far away from `sqRing`: vertices (10,10)..(10,12). -/
def farRing : List Pt := [(10, 10), (12, 10), (12, 12), (10, 12)]

/-- Feature A: valid geometry far from the test point, AGS "11111". -/
def featA : RawFeature :=
  ⟨GeomField.valid farRing, some ⟨some "11111".toList, some "A".toList⟩⟩

/-- Feature B: the unit-test square, AGS "06412". -/
def featB : RawFeature :=
  ⟨GeomField.valid sqRing, some ⟨some "06412".toList, some "B".toList⟩⟩

/-- Feature C: the same square as B but AGS "99999" — used to check that
the first containing feature wins. -/
def featC : RawFeature :=
  ⟨GeomField.valid sqRing, some ⟨some "99999".toList, some "C".toList⟩⟩

/-- A feature whose geometry fails to parse. -/
def featBad : RawFeature :=
  ⟨GeomField.malformed, some ⟨some "00000".toList, some "Bad".toList⟩⟩

/- ===== C1 ===== -/

/-- C1 counterexample: the claim says `matches(queryCode, "")` is `false`
for every query code, but the code's match test is a plain `startswith`, and
the empty string is a prefix of every string: at query code "067" and empty
warning code the loop's predicate yields `true`, not `false`. -/
theorem empty_warncode_matches_cex : agsMatches "067".toList [] = true := by
  decide

/-- C1 amended: under the prefix policy as implemented
(`location_ags.startswith(ags_code)` with no emptiness guard), an empty
warning region code matches EVERY query code. -/
theorem empty_warncode_matches_all (q : Str) : agsMatches q [] = true := by
  simp [agsMatches, List.isPrefixOf]

/- ===== C2 ===== -/

/-- C2: the prefix policy matches exactly when the query code starts with
the warning code as a literal string prefix, and in particular a query code
strictly shorter than the warning code never matches. -/
theorem prefix_policy_characterization (q w : Str) :
    (agsMatches q w = true ↔ w <+: q) ∧
    (q.length < w.length → agsMatches q w = false) := by
  constructor
  · simp [agsMatches]
  · intro hlen
    rcases h : agsMatches q w with _ | _
    · rfl
    · exfalso
      have hpre : w <+: q := by simpa [agsMatches] using h
      exact absurd hpre.length_le (by omega)

/-- C2 witness: at query "067" (length 3) and warning code "067123"
(length 6) the shorter-query clause applies and the match is `false`. -/
theorem prefix_policy_characterization_w :
    agsMatches "067".toList "067123".toList = false :=
  (prefix_policy_characterization "067".toList "067123".toList).2 (by decide)

/- ===== C5 ===== -/

/-- C5: `LeadingDigitStrip` normalization drops exactly the first character
when the raw cell id starts with '1' and has length > 1, and otherwise
returns the id unchanged; including the spec's three examples. -/
theorem leading_digit_strip_spec :
    (ags_code_from_warncell "1067".toList = "067".toList
      ∧ ags_code_from_warncell "067".toList = "067".toList
      ∧ ags_code_from_warncell "2067".toList = "2067".toList)
    ∧ (∀ c : Char, ∀ rest : Str,
        ags_code_from_warncell ('1' :: c :: rest) = c :: rest)
    ∧ (∀ w : Str, ¬ ("1".toList <+: w ∧ 1 < w.length) →
        ags_code_from_warncell w = w) := by
  refine ⟨by decide, ?_, ?_⟩
  · intro c rest
    simp [ags_code_from_warncell, List.isPrefixOf]
  · intro w hw
    have hcond : ¬ ("1".toList.isPrefixOf w && decide (1 < w.length)) = true := by
      intro hc
      simp only [Bool.and_eq_true] at hc
      rcases hc with ⟨h1, h2⟩
      exact hw ⟨List.isPrefixOf_iff_prefix.mp h1, of_decide_eq_true h2⟩
    simp only [ags_code_from_warncell, if_neg hcond]

/-- C5 witness: applying the theorem at "2067" (does not start with '1')
returns the id unchanged. -/
theorem leading_digit_strip_spec_w :
    ags_code_from_warncell "2067".toList = "2067".toList :=
  leading_digit_strip_spec.2.2 "2067".toList (by decide)

/- ===== C6 ===== -/

/-- The matching loop, written as filter-then-concatenate: this is the
shape the order/exactness claims are stated against. -/
theorem match_loop_eq_filter (k : Str) (m : List (Str × List Warning)) :
    match_loop k m =
      ((m.filter fun e => !decide (e.1.length < 6) && cellMatches e.1 k).map
        fun e => e.2).flatten := by
  induction m with
  | nil => rfl
  | cons e t ih =>
    obtain ⟨c, l⟩ := e
    by_cases h6 : c.length < 6
    · simp [match_loop, h6, ih]
    · by_cases hm : cellMatches c k
      · simp [match_loop, h6, hm, ih]
      · simp [match_loop, h6, hm, ih]

/-- C6: under `CountySubstring` normalization and the truncated-equality
policy, for a cell id of length ≥ 6 and a query code of length ≥ 5 the
warning matches iff the cell id's characters at indices 1 through 5
(0-indexed) equal the query code's first 5 characters; and the cell id
"803257000" normalizes to region code "03257". -/
theorem county_substring_match_iff :
    (∀ cell q : Str, 6 ≤ cell.length → 5 ≤ q.length →
      (cellMatches cell (q.take 5) = true ↔
        ∀ i : Fin 5, cell[(i : Nat) + 1]? = q[(i : Nat)]?))
    ∧ ("803257000".toList.drop 1).take 5 = "03257".toList := by
  constructor
  · intro cell q hcell hq
    rw [cellMatches, beq_iff_eq]
    constructor
    · intro h i
      have hi := congrArg (fun l : Str => l[(i : Nat)]?) h
      simp only at hi
      rw [List.getElem?_take_of_lt i.isLt, List.getElem?_drop,
        List.getElem?_take_of_lt i.isLt] at hi
      rw [Nat.add_comm] at hi
      exact hi
    · intro h
      apply List.ext_getElem?
      intro n
      by_cases hn : n < 5
      · rw [List.getElem?_take_of_lt hn, List.getElem?_take_of_lt hn,
          List.getElem?_drop]
        have := h ⟨n, hn⟩
        simpa [Nat.add_comm] using this
      · rw [List.getElem?_eq_none, List.getElem?_eq_none]
        · simp only [List.length_take]
          omega
        · simp only [List.length_take, List.length_drop]
          omega
  · decide

/-- C6 witness: cell id "803257000" against query "0625100012"-style code
"0325799" of length 7: characters 1..5 of the cell equal the query's first
five characters, so the truncated-equality policy matches. -/
theorem county_substring_match_iff_w :
    cellMatches "803257000".toList ("0325799".toList.take 5) = true :=
  (county_substring_match_iff.1 "803257000".toList "0325799".toList
    (by decide) (by decide)).mpr (by decide)

/- ===== C7 ===== -/

/-- An entry with a cell id shorter than 6 characters is invisible to the
matching loop: the loop over a mapping containing it computes the same
result as over the mapping without it. -/
theorem match_loop_drop_short (k cell : Str) (ws : List Warning)
    (m₁ m₂ : List (Str × List Warning)) (hc : cell.length < 6) :
    match_loop k (m₁ ++ (cell, ws) :: m₂) = match_loop k (m₁ ++ m₂) := by
  induction m₁ with
  | nil => simp [match_loop, hc]
  | cons e t ih =>
    obtain ⟨c, l⟩ := e
    by_cases h6 : c.length < 6
    · simp [match_loop, h6, ih]
    · by_cases hm : cellMatches c k
      · simp [match_loop, h6, hm, ih]
      · simp [match_loop, h6, hm, ih]

/-- C7: a warning entry whose raw cell id has fewer than 6 characters is
silently dropped during lookup under the `CountySubstring` convention —
the lookup over a warnings mapping containing such an entry equals the
lookup over the mapping without it (so the entry appears in no result, no
error is raised, and all remaining entries are still processed). -/
theorem short_warncell_dropped (ags cell : Str) (ws : List Warning)
    (m₁ m₂ : List (Str × List Warning))
    (hags : 5 ≤ ags.length) (hc : cell.length < 6) :
    get_warnings_by_ags ags (m₁ ++ (cell, ws) :: m₂) =
      get_warnings_by_ags ags (m₁ ++ m₂) := by
  have hguard : ¬ (ags = [] ∨ ags.length < 5) := by
    rintro (rfl | h)
    · simp at hags
    · omega
  simp only [get_warnings_by_ags, if_neg hguard]
  rw [match_loop_drop_short _ _ _ _ _ hc]

/-- C7 witness: an entry with 4-character cell id "0625" is dropped from a
concrete lookup, which therefore equals the lookup without that entry. -/
theorem short_warncell_dropped_w :
    get_warnings_by_ags "0625100012".toList
        ([("803257000".toList, [])] ++ ("0625".toList, []) :: [("106251000".toList, [])]) =
      get_warnings_by_ags "0625100012".toList
        ([("803257000".toList, [])] ++ [("106251000".toList, [])]) :=
  short_warncell_dropped "0625100012".toList "0625".toList []
    [("803257000".toList, [])] [("106251000".toList, [])] (by decide) (by decide)

/- ===== C8 ===== -/

/-- C8: for a valid query code, lookup returns exactly the warning records
of the entries whose region code matches the query — the concatenation, in
original ingestion order, of the matching cells' warning lists — with no
error; in particular when no entry matches it returns the empty list and
no error. -/
theorem lookup_returns_matches_in_order (ags : Str)
    (m : List (Str × List Warning)) (h : 5 ≤ ags.length) :
    get_warnings_by_ags ags m =
      (((m.filter fun e => !decide (e.1.length < 6)
          && cellMatches e.1 (ags.take 5)).map fun e => e.2).flatten, none)
    ∧ ((∀ e ∈ m, e.1.length < 6 ∨ cellMatches e.1 (ags.take 5) = false) →
        get_warnings_by_ags ags m = ([], none)) := by
  have hguard : ¬ (ags = [] ∨ ags.length < 5) := by
    rintro (rfl | hlt)
    · simp at h
    · omega
  constructor
  · simp only [get_warnings_by_ags, if_neg hguard]
    rw [match_loop_eq_filter]
  · intro hnone
    simp only [get_warnings_by_ags, if_neg hguard]
    rw [match_loop_eq_filter]
    have : (m.filter fun e => !decide (e.1.length < 6)
        && cellMatches e.1 (ags.take 5)) = [] := by
      rw [List.filter_eq_nil_iff]
      intro e he
      rcases hnone e he with h6 | hm
      · simp [h6]
      · simp [hm]
    rw [this]
    rfl

/- ===== C10 ===== -/

/-- C10: a query code that is empty or shorter than 5 characters makes the
lookup return the empty list paired with the invalid-code error message,
without performing any matching. -/
theorem short_ags_returns_error (ags : Str)
    (m : List (Str × List Warning)) (h : ags.length < 5) :
    get_warnings_by_ags ags m = ([], some errMsgInvalidAgs) := by
  simp only [get_warnings_by_ags, if_pos (Or.inr h)]

/-- C10 witness: the 3-character query "067" yields the empty list and the
error message on a non-empty warnings mapping. -/
theorem short_ags_returns_error_w :
    get_warnings_by_ags "067".toList [("803257000".toList, [])] =
      ([], some errMsgInvalidAgs) :=
  short_ags_returns_error "067".toList [("803257000".toList, [])] (by decide)

/- ===== Helpers about the resolution scan ===== -/

/-- A feature that does not contain the point (missing keys, unparsable
geometry, or geometry not containing it) is skipped by the scan. -/
theorem resolve_skip (p : Pt) (g : RawFeature) (rest : List RawFeature)
    (h : featureContains g p = false) :
    get_ags_from_coordinates p (g :: rest) = get_ags_from_coordinates p rest := by
  obtain ⟨geom, props⟩ := g
  cases props with
  | none => simp [get_ags_from_coordinates]
  | some pr =>
    cases geom with
    | absent => simp [get_ags_from_coordinates]
    | malformed => simp [get_ags_from_coordinates]
    | valid ring =>
      have hc : containsPt ring p = false := by
        simpa [featureContains] using h
      simp [get_ags_from_coordinates, hc]

/-- The scan's result over a shared head feature only depends on the scan's
result over the tails. -/
theorem resolve_cong_tail (p : Pt) (g : RawFeature) (l₁ l₂ : List RawFeature)
    (h : get_ags_from_coordinates p l₁ = get_ags_from_coordinates p l₂) :
    get_ags_from_coordinates p (g :: l₁) = get_ags_from_coordinates p (g :: l₂) := by
  obtain ⟨geom, props⟩ := g
  cases props with
  | none => simpa [get_ags_from_coordinates] using h
  | some pr =>
    cases geom with
    | absent => simpa [get_ags_from_coordinates] using h
    | malformed => simpa [get_ags_from_coordinates] using h
    | valid ring =>
      by_cases hc : containsPt ring p
      · cases ha : pr.ags with
        | none => simpa [get_ags_from_coordinates, hc, ha] using h
        | some a =>
          by_cases hne : a = []
          · simpa [get_ags_from_coordinates, hc, ha, hne] using h
          · simp [get_ags_from_coordinates, hc, ha, hne]
      · simpa [get_ags_from_coordinates, hc] using h

/-- A scan over features none of which contains the point yields NotFound. -/
theorem resolve_none_of_no_contains (p : Pt) :
    ∀ gs : List RawFeature, (∀ g ∈ gs, featureContains g p = false) →
      get_ags_from_coordinates p gs = none := by
  intro gs
  induction gs with
  | nil => intro _; rfl
  | cons g t ih =>
    intro h
    rw [resolve_skip p g t (h g (List.mem_cons_self g t))]
    exact ih fun g' hg' => h g' (List.mem_cons_of_mem g hg')

/- ===== C4 ===== -/

/-- C4: the resolver scans features in catalog order and returns the code
and name of the first feature containing the query point — features before
it that do not contain the point are passed over, and whatever follows it
is never reached — and when no feature contains the point the result is
NotFound (`none`), a normal non-error outcome. -/
theorem resolve_first_match (p : Pt) (fs₁ fs₂ : List RawFeature)
    (f : RawFeature) (pr : Props) (a : Str)
    (hskip : ∀ g ∈ fs₁, featureContains g p = false)
    (hcont : featureContains f p = true)
    (hpr : f.properties = some pr) (ha : pr.ags = some a) (hne : a ≠ []) :
    get_ags_from_coordinates p (fs₁ ++ f :: fs₂) =
      some (a, pr.name.getD "Unbekannt".toList)
    ∧ ∀ gs : List RawFeature, (∀ g ∈ gs, featureContains g p = false) →
        get_ags_from_coordinates p gs = none := by
  refine ⟨?_, resolve_none_of_no_contains p⟩
  induction fs₁ with
  | nil =>
    obtain ⟨geom, props⟩ := f
    cases geom with
    | absent => simp [featureContains] at hcont
    | malformed => simp [featureContains] at hcont
    | valid ring =>
      have hc : containsPt ring p = true := by
        simpa [featureContains] using hcont
      have hprops : props = some pr := hpr
      subst hprops
      simp [get_ags_from_coordinates, hc, ha, hne]
  | cons g t ih =>
    rw [List.cons_append,
      resolve_skip p g _ (hskip g (List.mem_cons_self g t))]
    exact ih fun g' hg' => hskip g' (List.mem_cons_of_mem g hg')

/-- C4 witness: with catalog [A (far away), B (contains the point),
C (also contains the point)], the point (1,1) resolves to B's code "06412"
and name "B" — the first containing feature wins — and a catalog whose
features do not contain the point resolves to NotFound. -/
theorem resolve_first_match_w :
    get_ags_from_coordinates (1, 1) ([featA] ++ featB :: [featC]) =
        some ("06412".toList, "B".toList)
    ∧ get_ags_from_coordinates (1, 1) [featA] = none := by
  have h := resolve_first_match (1, 1) [featA] [featC] featB
    ⟨some "06412".toList, some "B".toList⟩ "06412".toList
    (by decide) (by decide) rfl rfl (by decide)
  exact ⟨h.1, h.2 [featA] (by decide)⟩

/- ===== C3 ===== -/

/-- C3 counterexample: the point (0,1) lies exactly on the boundary of
feature B's square polygon, yet the resolver — whose containment test is
Shapely's interior-only `contains` — does not treat it as contained and
returns NotFound instead of B's code and name. -/
theorem boundary_point_not_resolved_cex :
    onBoundary sqRing (0, 1) = true
    ∧ get_ags_from_coordinates (0, 1) [featB] = none := by
  decide

/-- C3 amended: point-in-polygon containment used by the resolver is
boundary-EXCLUSIVE: a point on a ring's boundary is never contained, and a
catalog all of whose valid geometries have the query point on their
boundary resolves to NotFound. -/
theorem boundary_exclusive_containment :
    (∀ (ring : List Pt) (p : Pt),
      onBoundary ring p = true → containsPt ring p = false)
    ∧ (∀ (fs : List RawFeature) (p : Pt),
        (∀ f ∈ fs, ∀ ring, f.geometry = GeomField.valid ring →
          onBoundary ring p = true) →
        get_ags_from_coordinates p fs = none) := by
  constructor
  · intro ring p h
    simp [containsPt, h]
  · intro fs p h
    apply resolve_none_of_no_contains
    intro g hg
    cases hgeom : g.geometry with
    | absent => simp [featureContains, hgeom]
    | malformed => simp [featureContains, hgeom]
    | valid ring =>
      have hb := h g hg ring hgeom
      simp [featureContains, hgeom, containsPt, hb]

/-- C3 witness: applying the amended theorem to the single-feature catalog
[B] and the boundary point (0,1) yields NotFound. -/
theorem boundary_exclusive_containment_w :
    get_ags_from_coordinates (0, 1) ([featB] ++ []) = none :=
  boundary_exclusive_containment.2 ([featB] ++ []) (0, 1) (by
    intro f hf ring hr
    have hf' : f = featB := by simpa using hf
    subst hf'
    have hval : GeomField.valid sqRing = GeomField.valid ring := hr
    injection hval with hring
    subst hring
    decide)

/- ===== C9 ===== -/

/-- C9: a feature whose geometry field is absent or fails to parse is
skipped wherever it occurs — resolution over a catalog containing it equals
resolution over the catalog without it, so such an entry never aborts the
scan and every remaining feature is still considered. -/
theorem bad_geometry_skipped (p : Pt) (f : RawFeature)
    (fs₁ fs₂ : List RawFeature)
    (h : f.geometry = GeomField.absent ∨ f.geometry = GeomField.malformed) :
    get_ags_from_coordinates p (fs₁ ++ f :: fs₂) =
      get_ags_from_coordinates p (fs₁ ++ fs₂) := by
  induction fs₁ with
  | nil =>
    simp only [List.nil_append]
    apply resolve_skip
    rcases h with h | h <;> simp [featureContains, h]
  | cons g t ih =>
    simpa using resolve_cong_tail p g _ _ ih

/-- C9 witness: a malformed-geometry feature between A and B is skipped;
the point (1,1) still resolves exactly as without it. -/
theorem bad_geometry_skipped_w :
    get_ags_from_coordinates (1, 1) ([featA] ++ featBad :: [featB]) =
      get_ags_from_coordinates (1, 1) ([featA] ++ [featB]) :=
  bad_geometry_skipped (1, 1) featBad [featA] [featB] (Or.inr rfl)

/- ===== C8 witness ===== -/

/-- A concrete warning record with every optional field absent. -/
def wEx : Warning :=
  ⟨none, none, none, none, none, none, none, none, none, none⟩

/-- C8 witness: for query "0625100012" over a two-entry mapping, only the
cell "106251000" (characters 1..5 = "06251") matches, so lookup returns
exactly its single record and no error. -/
theorem lookup_returns_matches_in_order_w :
    get_warnings_by_ags "0625100012".toList
        [("803257000".toList, []), ("106251000".toList, [wEx])] =
      ([wEx], none) :=
  (lookup_returns_matches_in_order "0625100012".toList
    [("803257000".toList, []), ("106251000".toList, [wEx])] (by decide)).1
